import Mathlib

/-!
Verification of the RomWBW HBIOS emulator core.

The definitions below are a shallow embedding of the C++ sources
`src/romwbw_mem.h` and `src/hbios_dispatch.cc`: byte arrays become total
functions `Nat → Nat` holding byte values, machine integers become `Nat`
with an explicit `% 2 ^ w` wherever the C++ type can wrap, and each C++
member function becomes a Lean function from the relevant state to the
updated state.  Logging, debug tracing and the access-tracing bitmaps are
omitted: they never change memory contents or results.
-/

namespace RomWBW

/-- Pointwise update of a byte array. -/
def upd (f : Nat → Nat) (i v : Nat) : Nat → Nat := fun j => if j = i then v else f j

/-- Pointwise set of a bit array (used for the shadow bitmap). -/
def setBit (f : Nat → Bool) (i : Nat) : Nat → Bool := fun j => if j = i then true else f j

/-- banked_mem::BANK_SIZE (32 KiB). -/
def BANK_SIZE : Nat := 32 * 1024

/-- banked_mem::ROM_SIZE (512 KiB). -/
def ROM_SIZE : Nat := 512 * 1024

/-- banked_mem::RAM_SIZE (512 KiB). -/
def RAM_SIZE : Nat := 512 * 1024

/-- banked_mem::BANK_BOUNDARY. -/
def BANK_BOUNDARY : Nat := 0x8000

/-- banked_mem::COMMON_BANK. -/
def COMMON_BANK : Nat := 0x8F

/-- State of `class banked_mem`.  `rom` and `ram` are the two 512 KiB byte
arrays, `flat` is the base-class (`qkz80_cpu_mem`) flat memory used when
banking is disabled. -/
structure BankedMem where
  rom : Nat → Nat
  ram : Nat → Nat
  current_bank : Nat
  banking_enabled : Bool
  shadow_bitmap : Nat → Bool
  flat : Nat → Nat
  rom_protect_start : Nat

/-- Physical index `(bank_id & 0x0F) * BANK_SIZE + offset` used for all RAM
accesses and for the (masked) ROM access in `fetch_banked`. -/
def masked_phys (bank_id offset : Nat) : Nat := (bank_id &&& 0x0F) * BANK_SIZE + offset

/-- Physical index `bank_id * BANK_SIZE + offset` used by `read_bank` for
ROM banks (the source does not mask the bank id there). -/
def rom_phys (bank_id offset : Nat) : Nat := bank_id * BANK_SIZE + offset

/-- The CBIOS DEVMAP workaround range in `banked_mem::write_bank`:
physical RAM addresses `0x78678 .. 0x7867B` are write-protected. -/
def devmapProtected (phys : Nat) : Bool :=
  decide (0x78678 ≤ phys ∧ phys < 0x7867C)

/-- The HBIOS ident protection in `banked_mem::write_bank`: physical RAM
addresses `0x7FE00..0x7FE02`, `0x7FF00..0x7FF02` and `0x7FFFC..0x7FFFD`
are write-protected. -/
def identProtected (phys : Nat) : Bool :=
  decide ((0x7FE00 ≤ phys ∧ phys < 0x7FE03) ∨ (0x7FF00 ≤ phys ∧ phys < 0x7FF03) ∨
          (0x7FFFC ≤ phys ∧ phys ≤ 0x7FFFD))

/-- banked_mem::read_bank. -/
def read_bank (m : BankedMem) (bank_id offset : Nat) : Nat :=
  if !m.banking_enabled || BANK_SIZE ≤ offset then 0xFF
  else if bank_id &&& 0x80 ≠ 0 then m.ram (masked_phys bank_id offset)
  else m.rom (rom_phys bank_id offset)

/-- banked_mem::write_bank.  ROM writes are ignored; the DEVMAP and ident
physical ranges are silently skipped. -/
def write_bank (m : BankedMem) (bank_id offset value : Nat) : BankedMem :=
  if !m.banking_enabled || BANK_SIZE ≤ offset then m
  else if bank_id &&& 0x80 ≠ 0 then
    let phys := masked_phys bank_id offset
    if devmapProtected phys then m
    else if identProtected phys then m
    else { m with ram := upd m.ram phys (value % 256) }
  else m

/-- banked_mem::fetch_banked (addr < BANK_BOUNDARY, banking enabled). -/
def fetch_banked (m : BankedMem) (addr : Nat) : Nat :=
  if m.current_bank &&& 0x80 ≠ 0 then m.ram (masked_phys m.current_bank addr)
  else if m.shadow_bitmap addr then m.ram (0 * BANK_SIZE + addr)
  else m.rom (masked_phys m.current_bank addr)

/-- banked_mem::store_banked (addr < BANK_BOUNDARY, banking enabled).
Writes while a ROM bank is selected land in RAM bank 0 and set the
shadow bit. -/
def store_banked (m : BankedMem) (addr byte : Nat) : BankedMem :=
  if m.current_bank &&& 0x80 ≠ 0 then
    { m with ram := upd m.ram (masked_phys m.current_bank addr) (byte % 256) }
  else
    { m with ram := upd m.ram (0 * BANK_SIZE + addr) (byte % 256),
             shadow_bitmap := setBit m.shadow_bitmap addr }

/-- banked_mem::fetch_mem (tracing omitted: it does not affect contents). -/
def fetch_mem (m : BankedMem) (addr : Nat) : Nat :=
  if !m.banking_enabled then m.flat addr
  else if addr < BANK_BOUNDARY then fetch_banked m addr
  else m.ram (masked_phys COMMON_BANK (addr - BANK_BOUNDARY))

/-- banked_mem::store_mem.  In the common area the three ident ranges
(`0xFE00..0xFE02`, `0xFF00..0xFF02`, `0xFFFC..0xFFFD`) reject writes. -/
def store_mem (m : BankedMem) (addr byte : Nat) : BankedMem :=
  if !m.banking_enabled then
    if m.rom_protect_start ≠ 0 ∧ m.rom_protect_start ≤ addr then m
    else { m with flat := upd m.flat addr (byte % 256) }
  else if addr < BANK_BOUNDARY then store_banked m addr byte
  else if (0xFE00 ≤ addr ∧ addr < 0xFE03) ∨ (0xFF00 ≤ addr ∧ addr < 0xFF03) ∨
          (0xFFFC ≤ addr ∧ addr ≤ 0xFFFD) then m
  else { m with ram := upd m.ram (masked_phys COMMON_BANK (addr - BANK_BOUNDARY)) (byte % 256) }

/-- banked_mem::select_bank. -/
def select_bank (m : BankedMem) (bank_id : Nat) : BankedMem :=
  if !m.banking_enabled then m else { m with current_bank := bank_id % 256 }

/-- The state right after `enable_banking()`: ROM erased to 0xFF, RAM
zeroed, bank 0 selected, shadow bitmap clear. -/
def initMem : BankedMem :=
  { rom := fun _ => 0xFF, ram := fun _ => 0, current_bank := 0,
    banking_enabled := true, shadow_bitmap := fun _ => false,
    flat := fun _ => 0, rom_protect_start := 0 }

/-- HBiosResult codes as the `uint8_t` values actually stored in the
dispatcher's `result` variable (`HBR_NOUNIT = -4`, `HBR_NOMEM = -5`,
`HBR_READONLY = -10`). -/
def HBR_SUCCESS : Nat := 0

/-- HBR_NOUNIT (= -4 as a byte). -/
def HBR_NOUNIT : Nat := 252

/-- HBR_NOMEM (= -5 as a byte). -/
def HBR_NOMEM : Nat := 251

/-- HBR_READONLY (= -10 as a byte). -/
def HBR_READONLY : Nat := 246

/-- Media id MID_MDROM. -/
def MID_MDROM : Nat := 1

/-- Media id MID_MDRAM. -/
def MID_MDRAM : Nat := 2

/-- Media id MID_HD. -/
def MID_HD : Nat := 4

/-- Media id MID_HDNEW. -/
def MID_HDNEW : Nat := 10

/-- The part of the HBIOSDispatch state read and written by
`handleSignalPort`: the signal-port state machine and the per-handler
dispatch addresses it registers. -/
structure SignalState where
  trapping_enabled : Bool := false
  cio_dispatch : Nat := 0
  dio_dispatch : Nat := 0
  rtc_dispatch : Nat := 0
  sys_dispatch : Nat := 0
  vda_dispatch : Nat := 0
  snd_dispatch : Nat := 0
  signal_state : Nat := 0
  signal_addr : Nat := 0

/-- The `switch (handler_idx)` in the prefixed-registration completion
(cases 0..5, anything else falls through unchanged). -/
def setHandler6 (st : SignalState) (idx addr : Nat) : SignalState :=
  if idx = 0 then { st with cio_dispatch := addr }
  else if idx = 1 then { st with dio_dispatch := addr }
  else if idx = 2 then { st with rtc_dispatch := addr }
  else if idx = 3 then { st with sys_dispatch := addr }
  else if idx = 4 then { st with vda_dispatch := addr }
  else if idx = 5 then { st with snd_dispatch := addr }
  else st

/-- The `switch (handler_idx)` in the sequential-registration completion
(cases 0..3). -/
def setHandler4 (st : SignalState) (idx addr : Nat) : SignalState :=
  if idx = 0 then { st with cio_dispatch := addr }
  else if idx = 1 then { st with dio_dispatch := addr }
  else if idx = 2 then { st with rtc_dispatch := addr }
  else if idx = 3 then { st with sys_dispatch := addr }
  else st

/-- HBIOSDispatch::handleSignalPort.  `value` is the byte written to the
signal port. -/
def handleSignalPort (st : SignalState) (value : Nat) : SignalState :=
  if st.signal_state = 0 then
    if value = 0x01 then st
    else if value = 0x02 then { st with signal_state := 1, signal_addr := 0 }
    else if value = 0xFE then st
    else if value = 0xFF then { st with trapping_enabled := true }
    else if 0x10 ≤ value ∧ value ≤ 0x15 then
      { st with signal_state := 0x80 ||| (value - 0x10), signal_addr := 0 }
    else st
  else if st.signal_state &&& 0x80 ≠ 0 then
    if st.signal_addr = 0 then { st with signal_addr := value % 256 }
    else
      let addr := (st.signal_addr ||| ((value % 256) <<< 8)) % 65536
      let st' := setHandler6 st (st.signal_state &&& 0x0F) addr
      { st' with signal_state := 0, signal_addr := 0 }
  else if 1 ≤ st.signal_state ∧ st.signal_state ≤ 8 then
    if st.signal_state % 2 = 1 then
      { st with signal_addr := value % 256, signal_state := st.signal_state + 1 }
    else
      let addr := (st.signal_addr ||| ((value % 256) <<< 8)) % 65536
      let st' := setHandler4 st ((st.signal_state - 1) / 2) addr
      if st.signal_state < 8 then { st' with signal_addr := 0, signal_state := st.signal_state + 1 }
      else { st' with signal_addr := 0, signal_state := 0 }
  else st

/-- Feed a list of bytes to the signal port in order. -/
def feedSignal (st : SignalState) (bytes : List Nat) : SignalState :=
  bytes.foldl handleSignalPort st

/-- The bank-copy parameters stored by SYSSETCPY and consumed by
SYSBNKCPY. -/
structure BnkCpyState where
  bnkcpy_src_bank : Nat := 0x8E
  bnkcpy_dst_bank : Nat := 0x8E
  bnkcpy_count : Nat := 0

/-- HBF_SYSSETCPY: D = destination bank, E = source bank, HL = count. -/
def sysSetCpy (st : BnkCpyState) (d e hl : Nat) : BnkCpyState :=
  { st with bnkcpy_dst_bank := d % 256, bnkcpy_src_bank := e % 256,
            bnkcpy_count := hl % 65536 }

/-- The common-area substitution in SYSBNKCPY: an address at or above
0x8000 is redirected to bank 0x8F with the offset shifted down. -/
def resolveCommon (bank addr : Nat) : Nat × Nat :=
  if 0x8000 ≤ addr then (0x8F, addr - 0x8000) else (bank, addr)

/-- One iteration of the SYSBNKCPY copy loop. -/
def bnkcpyStep (mem : BankedMem) (srcB dstB sA dA : Nat) : BankedMem :=
  let s := resolveCommon srcB sA
  let d := resolveCommon dstB dA
  write_bank mem d.1 d.2 (read_bank mem s.1 s.2)

/-- The SYSBNKCPY loop: iterations `0 .. n-1` in order (iteration `n-1`
performed last).  Addresses are computed modulo 2^16 as in the source,
where `src_addr + i` is a `uint16_t`. -/
def bnkcpyLoop (srcB dstB srcA dstA : Nat) (mem : BankedMem) : Nat → BankedMem
  | 0 => mem
  | n + 1 => bnkcpyStep (bnkcpyLoop srcB dstB srcA dstA mem n) srcB dstB
      ((srcA + n) % 65536) ((dstA + n) % 65536)

/-- HBF_SYSBNKCPY: HL = source address, DE = destination address; bank and
count come from the stored SYSSETCPY parameters. -/
def sysBnkCpy (mem : BankedMem) (st : BnkCpyState) (hl de : Nat) : BankedMem :=
  if 0 < st.bnkcpy_count then
    bnkcpyLoop st.bnkcpy_src_bank st.bnkcpy_dst_bank (hl % 65536) (de % 65536) mem st.bnkcpy_count
  else mem

/-- Resolved bank of byte `i` of a SYSBNKCPY transfer side. -/
def bcBank (bank base i : Nat) : Nat := (resolveCommon bank ((base + i) % 65536)).1

/-- Resolved in-bank offset of byte `i` of a SYSBNKCPY transfer side. -/
def bcAddr (bank base i : Nat) : Nat := (resolveCommon bank ((base + i) % 65536)).2

/-- Resolved physical RAM index of byte `i` of a SYSBNKCPY transfer side. -/
def bcPhys (bank base i : Nat) : Nat := masked_phys (bcBank bank base i) (bcAddr bank base i)

/-- Result of HBF_SYSALLOC: the new heap pointer, the returned HL, the Z
and C flags placed in F, and the result code. -/
structure AllocResult where
  heap_ptr : Nat
  hl : Nat
  fZ : Bool
  fC : Bool
  result : Nat

/-- HBF_SYSALLOC.  `heap_ptr` and `size` are 16-bit; the comparison
`heap_ptr + size <= heap_end` is exact (int arithmetic in the source). -/
def sysAlloc (heap_ptr size : Nat) : AllocResult :=
  if heap_ptr + size ≤ 0x8000 then
    { heap_ptr := (heap_ptr + size) % 65536, hl := heap_ptr,
      fZ := true, fC := false, result := HBR_SUCCESS }
  else
    { heap_ptr := heap_ptr, hl := 0, fZ := false, fC := true, result := HBR_NOMEM }

/-- HBF_SYSPOKE: D = bank, E = byte, HL = address; low addresses go
through write_bank, common-area addresses through store_mem. -/
def sysPoke (m : BankedMem) (d_reg e_reg hl : Nat) : BankedMem :=
  let bank := d_reg % 256
  let byte := e_reg % 256
  let addr := hl % 65536
  if addr < 0x8000 then write_bank m bank addr byte else store_mem m addr byte

/-- The `write_to_bank` lambda of HBF_DIOREAD: a bank-hinted guest-memory
write (bit 7 of the hint set selects direct bank access with the common
area redirected to bank 0x8F). -/
def write_to_bank (mem : BankedMem) (buffer_bank addr byte : Nat) : BankedMem :=
  if buffer_bank &&& 0x80 ≠ 0 then
    if 0x8000 ≤ addr then write_bank mem 0x8F (addr - 0x8000) byte
    else write_bank mem buffer_bank addr byte
  else store_mem mem addr byte

/-- struct MemDiskState. -/
structure MemDiskState where
  current_lba : Nat := 0
  start_bank : Nat := 0
  num_banks : Nat := 0
  is_rom : Bool := false
  is_enabled : Bool := false

/-- MemDiskState::total_sectors (64 sectors of 512 bytes per 32 KiB bank). -/
def MemDiskState.total_sectors (md : MemDiskState) : Nat := md.num_banks * 64

/-- struct HBDisk.  `data`/`data_size` model the in-memory byte vector; for
file-backed disks `data`/`host_size` model the host file contents and its
length while `data_size = 0` (the vector is empty), and `size` is the
cached size field. -/
structure HBDisk where
  is_open : Bool := false
  data : Nat → Nat := fun _ => 0
  data_size : Nat := 0
  file_backed : Bool := false
  has_handle : Bool := false
  host_size : Nat := 0
  size : Nat := 0
  current_lba : Nat := 0
  partition_probed : Bool := false
  partition_base_lba : Nat := 0
  slice_size : Nat := 16640
  is_hd1k : Bool := false

/-- map_md_unit: RomWBW unit number to memory-disk index (0xFF = not MD). -/
def map_md_unit (unit : Nat) : Nat :=
  if unit < 2 then unit
  else if 0x80 ≤ unit ∧ unit ≤ 0x8F then
    (if unit &&& 0x0F < 2 then unit &&& 0x0F else 1)
  else if 0xC0 ≤ unit ∧ unit ≤ 0xCF then 1
  else 0xFF

/-- map_hd_unit: RomWBW unit number to hard-disk array index (0xFF = not HD). -/
def map_hd_unit (unit : Nat) : Nat :=
  if unit < 2 then 0xFF
  else if 2 ≤ unit ∧ unit < 18 then unit - 2
  else if 0x90 ≤ unit ∧ unit ≤ 0x9F then unit &&& 0x0F
  else 0xFF

/-- is_md_unit: the unit maps to a memory disk and that disk is enabled. -/
def is_md_unit (unit : Nat) (md_disks : Nat → MemDiskState) : Bool :=
  decide (map_md_unit unit ≠ 0xFF) && (md_disks (map_md_unit unit)).is_enabled

/-- The `is_harddisk` test used by handleDIO and handleEXT:
`hd_unit != 0xFF && hd_unit < 16 && disks[hd_unit].is_open`. -/
def is_hd_unit (unit : Nat) (disks : Nat → HBDisk) : Bool :=
  decide (map_hd_unit unit ≠ 0xFF) && decide (map_hd_unit unit < 16) &&
    (disks (map_hd_unit unit)).is_open

/-- The dispatcher state consumed by the DIO and EXT handlers. -/
structure HBDioState where
  mem : BankedMem
  md_disks : Nat → MemDiskState
  disks : Nat → HBDisk

/-- Pointwise update of the memory-disk array. -/
def updMd (f : Nat → MemDiskState) (i : Nat) (v : MemDiskState) : Nat → MemDiskState :=
  fun j => if j = i then v else f j

/-- Pointwise update of the hard-disk array. -/
def updDisk (f : Nat → HBDisk) (i : Nat) (v : HBDisk) : Nat → HBDisk :=
  fun j => if j = i then v else f j

/-- HBF_DIOMEDIA: returns the pair (value placed in E, result code). -/
def dioMedia (st : HBDioState) (raw_unit : Nat) : Nat × Nat :=
  if is_md_unit raw_unit st.md_disks then
    ((if (st.md_disks (map_md_unit raw_unit)).is_rom then MID_MDROM else MID_MDRAM), HBR_SUCCESS)
  else if is_hd_unit raw_unit st.disks then (MID_HD, HBR_SUCCESS)
  else (0xFF, HBR_NOUNIT)

/-- The `read_from_bank` lambda of HBF_DIOWRITE: a bank-hinted guest-memory
read (bit 7 of the hint set selects direct bank access with the common
area redirected to bank 0x8F). -/
def read_from_bank (mem : BankedMem) (buffer_bank addr : Nat) : Nat :=
  if buffer_bank &&& 0x80 ≠ 0 then
    if 0x8000 ≤ addr then read_bank mem 0x8F (addr - 0x8000)
    else read_bank mem buffer_bank addr
  else fetch_mem mem addr

/-- The inner 512-byte loop of a memory-disk DIOWRITE sector. -/
def mdWriteInner (bb dst_bank dst_offset bufbase : Nat) (mem : BankedMem) : Nat → BankedMem
  | 0 => mem
  | n + 1 =>
    let m := mdWriteInner bb dst_bank dst_offset bufbase mem n
    write_bank m dst_bank (dst_offset + n) (read_from_bank m bb ((bufbase + n) % 65536) % 256)

/-- The per-sector loop of a memory-disk DIOWRITE (fuel = remaining sector
count; stops early when current_lba reaches total_sectors).  Returns the
updated memory, the updated memory-disk state and blocks_written. -/
def mdWriteGo (bb buffer : Nat) : Nat → BankedMem → MemDiskState → Nat → Nat →
    BankedMem × MemDiskState × Nat
  | 0, mem, md, _, blocks => (mem, md, blocks)
  | r + 1, mem, md, s, blocks =>
    if md.total_sectors ≤ md.current_lba then (mem, md, blocks)
    else
      let dst_bank := (md.start_bank + md.current_lba / 64) % 256
      let dst_offset := (md.current_lba % 64) * 512
      let mem' := mdWriteInner bb dst_bank dst_offset ((buffer + s * 512) % 65536) mem 512
      mdWriteGo bb buffer r mem' { md with current_lba := md.current_lba + 1 } (s + 1) (blocks + 1)

/-- Write one 512-byte sector's bytes into a hard-disk byte array. -/
def hdWriteBytes (mem : BankedMem) (bb bufbase : Nat) (data : Nat → Nat) (offset : Nat) :
    Nat → (Nat → Nat)
  | 0 => data
  | n + 1 => upd (hdWriteBytes mem bb bufbase data offset n) (offset + n)
      (read_from_bank mem bb ((bufbase + n) % 65536) % 256)

/-- The per-sector loop of an in-memory hard-disk DIOWRITE (with resize,
zero-filling the gap). -/
def hdMemWriteGo (mem : BankedMem) (bb buffer lba : Nat) :
    Nat → (Nat → Nat) → Nat → Nat → Nat → ((Nat → Nat) × Nat × Nat)
  | 0, data, dsize, _, blocks => (data, dsize, blocks)
  | r + 1, data, dsize, s, blocks =>
    let offset := (((lba + s) % 4294967296) * 512) % 4294967296
    let data1 := if dsize < offset + 512 then (fun i => if i < dsize then data i else 0) else data
    let dsize1 := if dsize < offset + 512 then offset + 512 else dsize
    let data2 := hdWriteBytes mem bb ((buffer + s * 512) % 65536) data1 offset 512
    hdMemWriteGo mem bb buffer lba r data2 dsize1 (s + 1) (blocks + 1)

/-- The per-sector loop of a file-backed hard-disk DIOWRITE
(emu_disk_write extends the tracked host size past the end). -/
def hdFileWriteGo (mem : BankedMem) (bb buffer lba : Nat) :
    Nat → (Nat → Nat) → Nat → Nat → ((Nat → Nat) × Nat)
  | 0, data, hsize, _ => (data, hsize)
  | r + 1, data, hsize, s =>
    let offset := (((lba + s) % 4294967296) * 512) % 4294967296
    let data' := hdWriteBytes mem bb ((buffer + s * 512) % 65536) data offset 512
    hdFileWriteGo mem bb buffer lba r data' (max hsize (offset + 512)) (s + 1)

/-- Result of HBF_DIOWRITE: updated state, E (blocks written), result code,
and whether emu_fatal was reached. -/
structure DioResult where
  st : HBDioState
  e : Nat
  result : Nat
  fatal : Bool

/-- HBF_DIOWRITE.  Inputs: C = raw unit, HL = buffer, D = buffer bank,
E = block count. -/
def dioWrite (st : HBDioState) (raw_unit hl d_reg e_reg : Nat) : DioResult :=
  let is_memdisk := is_md_unit raw_unit st.md_disks
  let is_harddisk := is_hd_unit raw_unit st.disks
  if !is_memdisk && !is_harddisk then { st := st, e := 0, result := HBR_NOUNIT, fatal := false }
  else
    let buffer := hl % 65536
    let buffer_bank := d_reg % 256
    let count := e_reg % 256
    if is_memdisk then
      let md_unit := map_md_unit raw_unit
      let md := st.md_disks md_unit
      if md.is_rom then { st := st, e := 0, result := HBR_READONLY, fatal := false }
      else
        let r := mdWriteGo buffer_bank buffer count st.mem md 0 0
        { st := { st with mem := r.1, md_disks := updMd st.md_disks md_unit r.2.1 },
          e := r.2.2 % 256, result := HBR_SUCCESS, fatal := false }
    else
      let hd_unit := map_hd_unit raw_unit
      let dsk := st.disks hd_unit
      let lba := dsk.current_lba
      if dsk.file_backed && dsk.has_handle then
        let r := hdFileWriteGo st.mem buffer_bank buffer lba count dsk.data dsk.host_size 0
        let dsk' := { dsk with data := r.1, host_size := r.2,
                               current_lba := (lba + count) % 4294967296 }
        { st := { st with disks := updDisk st.disks hd_unit dsk' },
          e := count % 256, result := HBR_SUCCESS, fatal := false }
      else if decide (dsk.data_size ≠ 0) then
        let r := hdMemWriteGo st.mem buffer_bank buffer lba count dsk.data dsk.data_size 0 0
        let dsk' := { dsk with data := r.1, data_size := r.2.1,
                               current_lba := (lba + r.2.2) % 4294967296 }
        { st := { st with disks := updDisk st.disks hd_unit dsk' },
          e := r.2.2 % 256, result := HBR_SUCCESS, fatal := false }
      else { st := st, e := 0, result := HBR_SUCCESS, fatal := true }

/-- Little-endian 32-bit read of a partition entry's starting LBA. -/
def le32at (f : Nat → Nat) (o : Nat) : Nat :=
  (f o ||| (f (o + 1) <<< 8) ||| (f (o + 2) <<< 16) ||| (f (o + 3) <<< 24)) % 4294967296

/-- Scan the four MBR partition entries at 0x1BE for the first one with
type byte 0x2E; return its starting LBA. -/
def findPart2E (mbr : Nat → Nat) : Option Nat :=
  if mbr (0x1BE + 4) = 0x2E then some (le32at mbr (0x1BE + 8))
  else if mbr (0x1CE + 4) = 0x2E then some (le32at mbr (0x1CE + 8))
  else if mbr (0x1DE + 4) = 0x2E then some (le32at mbr (0x1DE + 8))
  else if mbr (0x1EE + 4) = 0x2E then some (le32at mbr (0x1EE + 8))
  else none

/-- The lazy MBR probe of HBF_EXTSLICE (`if (!disk.partition_probed)`):
defaults to hd512 (slice_size 16640), switches to hd1k when a valid MBR
signature carries a type-0x2E partition, or when the disk size is exactly
8 MiB. -/
def probeDisk (d : HBDisk) : HBDisk :=
  if d.partition_probed then d
  else
    let d0 := { d with partition_probed := true, partition_base_lba := 0,
                       slice_size := 16640, is_hd1k := false }
    let mbr_valid :=
      if d.file_backed && d.has_handle then decide (512 ≤ d.host_size)
      else decide (d.data_size ≠ 0) && decide (512 ≤ d.data_size)
    let disk_size :=
      if d.size = 0 then (if d.file_backed && d.has_handle then d.host_size else d.data_size)
      else d.size
    if mbr_valid then
      let part := if d.data 510 = 0x55 ∧ d.data 511 = 0xAA then findPart2E d.data else none
      match part with
      | some part_lba =>
          { d0 with partition_base_lba := part_lba, slice_size := 16384, is_hd1k := true }
      | none =>
          if disk_size = 8388608 then
            { d0 with partition_base_lba := 0, slice_size := 16384, is_hd1k := true }
          else d0
    else d0

/-- Result of HBF_EXTSLICE: updated state and the B, C, DE, HL outputs. -/
structure ExtSliceResult where
  st : HBDioState
  b : Nat
  c : Nat
  de : Nat
  hl : Nat

/-- HBF_EXTSLICE.  Inputs: D = disk unit, E = slice number. -/
def extSlice (st : HBDioState) (d_reg e_reg : Nat) : ExtSliceResult :=
  let disk_unit := d_reg % 256
  let slice := e_reg % 256
  if is_md_unit disk_unit st.md_disks then
    { st := st, b := 0,
      c := if disk_unit = 0 ∨ (0x80 ≤ disk_unit ∧ disk_unit < 0x82) then 0x01 else 0x02,
      de := 0, hl := 0 }
  else if is_hd_unit disk_unit st.disks then
    let hd_idx := map_hd_unit disk_unit
    let d := probeDisk (st.disks hd_idx)
    let slice_lba := (d.partition_base_lba + slice * d.slice_size) % 4294967296
    { st := { st with disks := updDisk st.disks hd_idx d },
      b := 0, c := if d.is_hd1k then 0x0A else 0x04,
      de := (slice_lba >>> 16) &&& 0xFFFF, hl := slice_lba &&& 0xFFFF }
  else
    { st := st, b := 0, c := 0x04, de := 0, hl := 0 }

/-- The inner byte loop of the ROM-application boot copy
(`for i < 512 && addr < end_addr && offset + i < app_data.size()`); the
first argument of the three loop counters is the remaining fuel (512 - i). -/
def appCopyInner (app : Nat → Nat) (app_size end_addr offset : Nat) :
    Nat → Nat → BankedMem → Nat → BankedMem × Nat
  | 0, _, mem, addr => (mem, addr)
  | f + 1, i, mem, addr =>
    if addr < end_addr ∧ offset + i < app_size then
      appCopyInner app app_size end_addr offset f (i + 1)
        (store_mem mem addr (app (offset + i))) ((addr + 1) % 65536)
    else (mem, addr)

/-- The sector loop of the ROM-application boot copy. -/
def appCopyOuter (app : Nat → Nat) (app_size end_addr : Nat) :
    Nat → Nat → BankedMem → Nat → BankedMem × Nat
  | 0, _, mem, addr => (mem, addr)
  | f + 1, s, mem, addr =>
    if addr < end_addr then
      let r := appCopyInner app app_size end_addr (0x600 + s * 512) 512 0 mem addr
      appCopyOuter app app_size end_addr f (s + 1) r.1 r.2
    else (mem, addr)

/-- HBIOSDispatch::bootFromDevice, ROM-application path.  Returns `none`
for the emu_fatal cases, otherwise the final memory and the new PC.
Note: when end_addr < load_addr the source computes a huge size_t sector
count, but the loop guard `addr < end_addr` is false at once, so the Nat
truncated subtraction used for `sectors` yields the same result. -/
def bootRomApp (mem : BankedMem) (app : Nat → Nat) (app_size : Nat) : Option (BankedMem × Nat) :=
  if app_size < 0x600 then none
  else
    let load_addr := (app 0x5EA ||| (app 0x5EB <<< 8)) % 65536
    let end_addr := (app 0x5EC ||| (app 0x5ED <<< 8)) % 65536
    let entry_addr := (app 0x5EE ||| (app 0x5EF <<< 8)) % 65536
    let sectors := (end_addr - load_addr + 511) / 512
    let r := appCopyOuter app app_size end_addr sectors 0 mem load_addr
    some (r.1, entry_addr)

/-- Per-sector read count of the disk-path boot copy: a file-backed read
returns the bytes available at the offset; the in-memory branch computes
`avail = data.size() - offset` in size_t, so an offset past the end
underflows and yields a full 512-byte read. -/
def diskReadCount (d : HBDisk) (offset : Nat) : Nat :=
  if d.file_backed && d.has_handle then
    (if d.host_size ≤ offset then 0 else min 512 (d.host_size - offset))
  else if decide (d.data_size ≠ 0) then
    (if offset ≤ d.data_size then min 512 (d.data_size - offset) else 512)
  else 0

/-- The inner byte loop of the disk boot copy
(`for i < read && addr < end_addr`). -/
def diskCopyInner (bytes : Nat → Nat) (end_addr offset : Nat) :
    Nat → Nat → BankedMem → Nat → BankedMem × Nat
  | 0, _, mem, addr => (mem, addr)
  | f + 1, i, mem, addr =>
    if addr < end_addr then
      diskCopyInner bytes end_addr offset f (i + 1)
        (store_mem mem addr (bytes (offset + i))) ((addr + 1) % 65536)
    else (mem, addr)

/-- The sector loop of the disk boot copy. -/
def diskCopyOuter (d : HBDisk) (end_addr : Nat) :
    Nat → Nat → BankedMem → Nat → BankedMem × Nat
  | 0, _, mem, addr => (mem, addr)
  | f + 1, s, mem, addr =>
    if addr < end_addr then
      let offset := 0x600 + s * 512
      let r := diskCopyInner d.data end_addr offset (diskReadCount d offset) 0 mem addr
      diskCopyOuter d end_addr f (s + 1) r.1 r.2
    else (mem, addr)

/-- HBIOSDispatch::bootFromDevice, disk path (after the unit has been
parsed and validated).  Returns the final memory, the new PC and the D and
E register values (`D = boot_unit`, `E = 0`). -/
def bootDisk (mem : BankedMem) (d : HBDisk) (boot_unit : Nat) :
    Option (BankedMem × Nat × Nat × Nat) :=
  let meta_read :=
    if d.file_backed && d.has_handle then
      (if d.host_size ≤ 0x5E0 then 0 else min 32 (d.host_size - 0x5E0))
    else if decide (d.data_size ≠ 0) && decide (0x600 ≤ d.data_size) then 32
    else 0
  if meta_read < 32 then none
  else
    let load_addr := (d.data 0x5FA ||| (d.data 0x5FB <<< 8)) % 65536
    let end_addr := (d.data 0x5FC ||| (d.data 0x5FD <<< 8)) % 65536
    let entry_addr := (d.data 0x5FE ||| (d.data 0x5FF <<< 8)) % 65536
    let sectors := (end_addr - load_addr + 511) / 512
    let r := diskCopyOuter d end_addr sectors 0 mem load_addr
    some (r.1, entry_addr, boot_unit % 256, 0)

/-! Concrete states used to instantiate the theorems below. -/

/-- A banked-memory state whose arrays are the identity function, used to
observe which physical index a direct bank access consults. -/
def idxMem : BankedMem :=
  { rom := fun i => i, ram := fun i => i, current_bank := 0,
    banking_enabled := true, shadow_bitmap := fun _ => false,
    flat := fun _ => 0, rom_protect_start := 0 }

/-- A hard disk that has already been probed as hd1k. -/
def cexDisk : HBDisk :=
  { is_open := true, data := fun _ => 0, data_size := 8388608, size := 8388608,
    partition_probed := true, partition_base_lba := 0, slice_size := 16384,
    is_hd1k := true }

/-- A dispatcher state with the hd1k hard disk at index 0 and no memory
disks. -/
def cexDioState : HBDioState :=
  { mem := initMem, md_disks := fun _ => {}, disks := fun i => if i = 0 then cexDisk else {} }

/-- A dispatcher state with an enabled RAM disk at MD0 and an enabled ROM
disk at MD1. -/
def mdDioState : HBDioState :=
  { mem := initMem,
    md_disks := fun i =>
      if i = 0 then { is_enabled := true, is_rom := false, start_bank := 0x81, num_banks := 2 }
      else if i = 1 then { is_enabled := true, is_rom := true, start_bank := 0x02, num_banks := 4 }
      else {},
    disks := fun _ => {} }

/-- An un-probed 8 MiB in-memory hard disk full of zero bytes (no MBR
signature). -/
def hd8mb : HBDisk :=
  { is_open := true, data := fun _ => 0, data_size := 8388608, size := 8388608 }

/-- A dispatcher state with the un-probed 8 MiB disk at index 0. -/
def hd8mbState : HBDioState :=
  { mem := initMem, md_disks := fun _ => {}, disks := fun i => if i = 0 then hd8mb else {} }

/-- A boot source whose header carries entry 0x1234 at file offsets
0x5EE..0x5EF (header bytes 14..15) and entry 0x5678 at file offsets
0x5FE..0x5FF (header bytes 30..31), with zero load and end addresses in
both encodings. -/
def cexApp : Nat → Nat := fun i =>
  if i = 0x5EE then 0x34 else if i = 0x5EF then 0x12
  else if i = 0x5FE then 0x78 else if i = 0x5FF then 0x56 else 0

/-- An in-memory boot disk holding the same bytes as cexApp. -/
def cexBootDisk : HBDisk :=
  { is_open := true, data := cexApp, data_size := 0x600 }

/-! Shared helper lemmas. -/

/-- Reading an updated cell gives the written value. -/
theorem upd_same (f : Nat → Nat) (i v : Nat) : upd f i v i = v := by simp [upd]

/-- Reading any other cell is unchanged. -/
theorem upd_other (f : Nat → Nat) {i j : Nat} (v : Nat) (h : j ≠ i) : upd f i v j = f j := by
  simp [upd, h]

/-- write_bank changes at most the ram array. -/
theorem write_bank_preserves (m : BankedMem) (b o v : Nat) :
    (write_bank m b o v).rom = m.rom ∧
    (write_bank m b o v).banking_enabled = m.banking_enabled ∧
    (write_bank m b o v).current_bank = m.current_bank := by
  simp only [write_bank]
  split_ifs <;> exact ⟨rfl, rfl, rfl⟩

/-- write_bank leaves every ram cell other than its target unchanged. -/
theorem write_bank_ram_frame (m : BankedMem) (b o v p : Nat) (h : p ≠ masked_phys b o) :
    (write_bank m b o v).ram p = m.ram p := by
  simp only [write_bank]
  split_ifs <;> first | rfl | exact upd_other m.ram (v % 256) h

/-- A successful write_bank stores the byte at the resolved physical
index. -/
theorem write_bank_ram_hit (m : BankedMem) (b o v : Nat)
    (he : m.banking_enabled = true) (ho : o < BANK_SIZE) (hb : b &&& 0x80 ≠ 0)
    (hd : devmapProtected (masked_phys b o) = false)
    (hi : identProtected (masked_phys b o) = false) :
    (write_bank m b o v).ram (masked_phys b o) = v % 256 := by
  have h1 : (!m.banking_enabled || decide (BANK_SIZE ≤ o)) = false := by
    simp [he, Nat.not_le.mpr ho]
  simp [write_bank, h1, hb, hd, hi, upd_same]

/-- C8: with banking enabled and a ROM bank selected, a store to an
address below 0x8000 lands in RAM bank 0 at offset A, sets the shadow
bit, and a subsequent fetch of A returns the stored byte (shadow read). -/
theorem C8_rom_bank_shadow_store_fetch (m : BankedMem) (A x : Nat)
    (hb : m.banking_enabled = true) (hrom : m.current_bank &&& 0x80 = 0)
    (hA : A < 0x8000) (hx : x < 256) :
    (store_mem m A x).ram (0 * BANK_SIZE + A) = x ∧
    (store_mem m A x).shadow_bitmap A = true ∧
    fetch_mem (store_mem m A x) A = x := by
  have hA' : A < BANK_BOUNDARY := hA
  simp [store_mem, store_banked, fetch_mem, fetch_banked, hb, hrom, hA', upd, setBit,
    Nat.mod_eq_of_lt hx]

/-- C8 witness: a concrete shadow-read round trip. -/
theorem C8_rom_bank_shadow_store_fetch_witness :
    (store_mem initMem 0x200 0xAB).ram (0 * BANK_SIZE + 0x200) = 0xAB ∧
    (store_mem initMem 0x200 0xAB).shadow_bitmap 0x200 = true ∧
    fetch_mem (store_mem initMem 0x200 0xAB) 0x200 = 0xAB :=
  C8_rom_bank_shadow_store_fetch initMem 0x200 0xAB rfl (by decide) (by decide) (by decide)

/-- C10 (amended): offsets at or beyond the bank size read 0xFF and drop
writes, as do accesses with banking disabled; write_bank's masked
physical index never leaves the 512 KiB RAM, and read_bank stays inside
the 512 KiB ROM for bank ids below 0x10 (but not in general: see the
counterexample). -/
theorem C10_bank_access_guards (m : BankedMem) (bank off v : Nat) :
    (0x8000 ≤ off → read_bank m bank off = 0xFF ∧ write_bank m bank off v = m) ∧
    (m.banking_enabled = false → read_bank m bank off = 0xFF ∧ write_bank m bank off v = m) ∧
    (off < BANK_SIZE → masked_phys bank off < RAM_SIZE) ∧
    (bank < 0x10 → off < BANK_SIZE → rom_phys bank off < ROM_SIZE) := by
  refine ⟨fun h => ?_, fun h => ?_, fun h => ?_, fun h1 h2 => ?_⟩
  · have hd : decide (BANK_SIZE ≤ off) = true := decide_eq_true (by simpa [BANK_SIZE] using h)
    exact ⟨by simp [read_bank, hd], by simp [write_bank, hd]⟩
  · exact ⟨by simp [read_bank, h], by simp [write_bank, h]⟩
  · have hb : bank &&& 0x0F ≤ 0x0F := Nat.and_le_right
    simp only [masked_phys, RAM_SIZE, BANK_SIZE] at *
    omega
  · simp only [rom_phys, ROM_SIZE, BANK_SIZE] at *
    omega

/-- C10 witness: concrete instances of the guards. -/
theorem C10_bank_access_guards_witness :
    read_bank idxMem 0x81 0x8000 = 0xFF ∧ write_bank idxMem 0x81 0x8000 0x42 = idxMem ∧
    masked_phys 0x81 0x1234 < RAM_SIZE :=
  ⟨((C10_bank_access_guards idxMem 0x81 0x8000 0x42).1 (by decide)).1,
   ((C10_bank_access_guards idxMem 0x81 0x8000 0x42).1 (by decide)).2,
   (C10_bank_access_guards idxMem 0x81 0x1234 0).2.2.1 (by decide)⟩

/-- C10 counterexample: read_bank of ROM bank id 0x10 at offset 0
consults rom index 524288, one past the end of the 512 KiB ROM array
(the bank id is not masked to 4 bits in read_bank). -/
theorem C10_counterexample :
    rom_phys 0x10 0 = ROM_SIZE ∧ ¬ rom_phys 0x10 0 < ROM_SIZE ∧
    read_bank idxMem 0x10 0 = idxMem.rom ROM_SIZE := by decide

/-- C9: write_bank to a RAM bank with low nibble 0xF at offsets
0x678..0x67B (the CBIOS DEVMAP words, CPU addresses 0x8678..0x867B) is
silently dropped, while store_mem to the same CPU addresses takes
effect, and a SYSBNKCPY directed at those addresses leaves memory
unchanged. -/
theorem C9_devmap_write_protection :
    (∀ (m : BankedMem) (bank off v : Nat),
        bank &&& 0x80 ≠ 0 → bank &&& 0x0F = 0x0F → 0x678 ≤ off → off < 0x67C →
        write_bank m bank off v = m) ∧
    (∀ (m : BankedMem) (addr x : Nat),
        m.banking_enabled = true → 0x8678 ≤ addr → addr < 0x867C → x < 256 →
        fetch_mem (store_mem m addr x) addr = x) ∧
    (∀ (m : BankedMem) (st0 : BnkCpyState) (srcb hl dst : Nat),
        0x8678 ≤ dst → dst < 0x867C →
        sysBnkCpy m (sysSetCpy st0 0x8F srcb 1) hl dst = m) ∧
    (∀ (m : BankedMem) (byte off : Nat),
        0x678 ≤ off → off < 0x67C → sysPoke m 0x8F byte off = m) ∧
    (∀ (m : BankedMem) (byte addr : Nat),
        0x8678 ≤ addr → addr < 0x867C → write_to_bank m 0x8F addr byte = m) := by
  have key : ∀ (m : BankedMem) (bank off v : Nat),
      bank &&& 0x80 ≠ 0 → bank &&& 0x0F = 0x0F → 0x678 ≤ off → off < 0x67C →
      write_bank m bank off v = m := by
    intro m bank off v h1 h2 h3 h4
    have hdp : devmapProtected (masked_phys bank off) = true := by
      simp only [devmapProtected, masked_phys, h2, BANK_SIZE, decide_eq_true_eq]
      omega
    by_cases hen : (!m.banking_enabled || decide (BANK_SIZE ≤ off)) = true
    · simp [write_bank, hen]
    · simp [write_bank, hen, h1, hdp]
  refine ⟨key, fun m addr x he h1 h2 hx => ?_, fun m st0 srcb hl dst h1 h2 => ?_,
    fun m byte off h1 h2 => ?_, fun m byte addr h1 h2 => ?_⟩
  · have hni : ¬ ((0xFE00 ≤ addr ∧ addr < 0xFE03) ∨ (0xFF00 ≤ addr ∧ addr < 0xFF03) ∨
        (0xFFFC ≤ addr ∧ addr ≤ 0xFFFD)) := by omega
    have hnb : ¬ addr < BANK_BOUNDARY := by simp only [BANK_BOUNDARY]; omega
    simp [store_mem, fetch_mem, he, hnb, hni, upd_same, Nat.mod_eq_of_lt hx]
  · have hdst : dst % 65536 = dst := Nat.mod_eq_of_lt (by omega)
    have hmm : (dst % 65536 + 0) % 65536 = dst := by omega
    have hres : resolveCommon 0x8F dst = (0x8F, dst - 0x8000) := by
      simp only [resolveCommon, if_pos (show 0x8000 ≤ dst by omega)]
    simp only [sysBnkCpy, sysSetCpy]
    rw [if_pos (by norm_num)]
    have h1e : (1 : Nat) % 65536 = 0 + 1 := by norm_num
    rw [h1e, bnkcpyLoop]
    simp only [bnkcpyLoop, bnkcpyStep, hmm]
    have h8f : (0x8F : Nat) % 256 = 0x8F := by norm_num
    rw [h8f, hres]
    exact key m 0x8F (dst - 0x8000) _ (by decide) (by decide) (by omega) (by omega)
  · have hoff : off % 65536 = off := Nat.mod_eq_of_lt (by omega)
    have h8f : (0x8F : Nat) % 256 = 0x8F := by norm_num
    simp only [sysPoke, hoff, h8f]
    rw [if_pos (by omega : off < 0x8000)]
    exact key m 0x8F off (byte % 256) (by decide) (by decide) h1 h2
  · simp only [write_to_bank]
    rw [if_pos (by decide : (0x8F : Nat) &&& 0x80 ≠ 0), if_pos (by omega : 0x8000 ≤ addr)]
    exact key m 0x8F (addr - 0x8000) byte (by decide) (by decide) (by omega) (by omega)

/-- C9 witness: a dropped write, an effective store, and an ineffective
SYSBNKCPY at the DEVMAP range, all at concrete inputs. -/
theorem C9_devmap_write_protection_witness :
    write_bank initMem 0x8F 0x678 0xAA = initMem ∧
    fetch_mem (store_mem initMem 0x8678 0x42) 0x8678 = 0x42 ∧
    sysBnkCpy initMem (sysSetCpy {} 0x8F 0x81 1) 0 0x8678 = initMem ∧
    sysPoke initMem 0x8F 0xAA 0x678 = initMem ∧
    write_to_bank initMem 0x8F 0x8678 0xAA = initMem :=
  ⟨C9_devmap_write_protection.1 initMem 0x8F 0x678 0xAA (by decide) (by decide)
      (by decide) (by decide),
   C9_devmap_write_protection.2.1 initMem 0x8678 0x42 rfl (by decide) (by decide) (by decide),
   C9_devmap_write_protection.2.2.1 initMem {} 0x81 0 0x8678 (by decide) (by decide),
   C9_devmap_write_protection.2.2.2.1 initMem 0xAA 0x678 (by decide) (by decide),
   C9_devmap_write_protection.2.2.2.2 initMem 0xAA 0x8678 (by decide) (by decide)⟩

/-- C4 (code evaluated at the failing input): a prefixed registration
begun with 0x10 whose two data bytes are 0x00, 0x00 is still in the
registration state (0x80, not idle) after the two declared data bytes; a
non-zero low byte completes after two bytes, and a sequential
registration returns to idle after exactly eight data bytes. -/
theorem C4_signal_failing_input_eval :
    (feedSignal {} [0x10, 0x00, 0x00]).signal_state = 0x80 ∧
    (feedSignal {} [0x10, 0x34, 0x12]).signal_state = 0 ∧
    (feedSignal {} [0x10, 0x34, 0x12]).cio_dispatch = 0x1234 ∧
    (feedSignal {} [0x02, 0x00, 0x10, 0x00, 0x20, 0x00, 0x30, 0x00, 0x40]).signal_state = 0 := by
  decide

/-- C3 (code evaluated at the failing input): the ROM-application boot
path takes its entry address from file bytes 0x5EA..0x5EF (header bytes
10..15), so a source whose documented header (bytes 26..31 at offset
0x5E0, i.e. file bytes 0x5FA..0x5FF) says entry 0x5678 is started at PC
0x1234 instead, while the disk boot path on the same bytes uses the
documented offsets and starts at 0x5678. -/
theorem C3_boot_header_eval :
    bootRomApp initMem cexApp 0x600 = some (initMem, 0x1234) ∧
    (cexApp 0x5FA ||| (cexApp 0x5FB <<< 8)) % 65536 = 0 ∧
    (cexApp 0x5FE ||| (cexApp 0x5FF <<< 8)) % 65536 = 0x5678 ∧
    (0x1234 : Nat) ≠ 0x5678 ∧
    bootDisk initMem cexBootDisk 2 = some (initMem, 0x5678, 2, 0) :=
  ⟨rfl, by decide, by decide, by decide, rfl⟩

/-- C6: if SYSALLOC(s) returns a non-zero pointer p then a following
SYSALLOC(t) returns p + s exactly when p + s + t fits below 0x8000, and
a SYSALLOC whose size overflows the heap returns HL = 0 with the carry
flag set, result no-memory, leaving the heap pointer unchanged. -/
theorem C6_sysalloc_bump (h s t size : Nat) :
    ((sysAlloc h s).hl ≠ 0 →
      ((sysAlloc (sysAlloc h s).heap_ptr t).hl = (sysAlloc h s).hl + s ↔
        (sysAlloc h s).hl + s + t ≤ 0x8000)) ∧
    (0x8000 < h + size →
      sysAlloc h size =
        { heap_ptr := h, hl := 0, fZ := false, fC := true, result := HBR_NOMEM }) := by
  constructor
  · intro hnz
    by_cases h1 : h + s ≤ 0x8000
    · have hhl : (sysAlloc h s).hl = h := by simp [sysAlloc, h1]
      have hhp : (sysAlloc h s).heap_ptr = h + s := by
        simp [sysAlloc, h1, Nat.mod_eq_of_lt (by omega : h + s < 65536)]
      rw [hhl, hhp]
      rw [hhl] at hnz
      by_cases h2 : h + s + t ≤ 0x8000
      · simp [sysAlloc, h2]
      · have : (sysAlloc (h + s) t).hl = 0 := by simp [sysAlloc, h2]
        rw [this]
        constructor
        · intro h0; omega
        · intro h0; exact absurd h0 h2
    · have : (sysAlloc h s).hl = 0 := by simp [sysAlloc, h1]
      exact absurd this hnz
  · intro hov
    simp [sysAlloc, Nat.not_le.mpr hov]

/-- C6 witness: a successful bump from 0x200 by 0x100 then 0x80, and an
overflowing request. -/
theorem C6_sysalloc_bump_witness :
    (sysAlloc (sysAlloc 0x200 0x100).heap_ptr 0x80).hl = (sysAlloc 0x200 0x100).hl + 0x100 ∧
    sysAlloc 0x7F00 0x200 =
      { heap_ptr := 0x7F00, hl := 0, fZ := false, fC := true, result := HBR_NOMEM } :=
  ⟨((C6_sysalloc_bump 0x200 0x100 0x80 0).1 (by decide)).mpr (by decide),
   (C6_sysalloc_bump 0x7F00 0 0 0x200).2 (by decide)⟩

/-- C2 counterexample: DIOMEDIA on a resolved hard-disk unit whose disk
is in hd1k format returns media id HD (4), not HDNEW (10). -/
theorem C2_counterexample :
    (cexDioState.disks (map_hd_unit 2)).is_hd1k = true ∧
    dioMedia cexDioState 2 = (MID_HD, HBR_SUCCESS) ∧
    MID_HD ≠ MID_HDNEW := by decide

/-- C2 (amended): DIOMEDIA returns MDROM for a ROM memory disk, MDRAM
for a RAM memory disk, and HD for every resolved hard disk regardless of
hd1k format (HDNEW is never returned by DIOMEDIA). -/
theorem C2_diomedia_media_ids (st : HBDioState) (u : Nat) :
    (is_md_unit u st.md_disks = true → (st.md_disks (map_md_unit u)).is_rom = true →
        dioMedia st u = (MID_MDROM, HBR_SUCCESS)) ∧
    (is_md_unit u st.md_disks = true → (st.md_disks (map_md_unit u)).is_rom = false →
        dioMedia st u = (MID_MDRAM, HBR_SUCCESS)) ∧
    (is_md_unit u st.md_disks = false → is_hd_unit u st.disks = true →
        dioMedia st u = (MID_HD, HBR_SUCCESS) ∧ (dioMedia st u).1 ≠ MID_HDNEW) := by
  refine ⟨fun h1 h2 => ?_, fun h1 h2 => ?_, fun h1 h2 => ?_⟩
  · simp [dioMedia, h1, h2]
  · simp [dioMedia, h1, h2]
  · constructor
    · simp [dioMedia, h1, h2]
    · simp [dioMedia, h1, h2, MID_HD, MID_HDNEW]

/-- C2 witness: the three media-id cases at concrete states. -/
theorem C2_diomedia_media_ids_witness :
    dioMedia mdDioState 1 = (MID_MDROM, HBR_SUCCESS) ∧
    dioMedia mdDioState 0 = (MID_MDRAM, HBR_SUCCESS) ∧
    dioMedia cexDioState 2 = (MID_HD, HBR_SUCCESS) :=
  ⟨(C2_diomedia_media_ids mdDioState 1).1 (by decide) (by decide),
   (C2_diomedia_media_ids mdDioState 0).2.1 (by decide) (by decide),
   ((C2_diomedia_media_ids cexDioState 2).2.2 (by decide) (by decide)).1⟩

/-- C5: DIOWRITE to a unit that resolves to an enabled ROM memory disk
returns the read-only result with zero blocks written in E and leaves
the whole dispatcher state (memory, disk contents, current_lba)
unchanged. -/
theorem C5_diowrite_readonly (st : HBDioState) (u hl d e : Nat)
    (hmd : is_md_unit u st.md_disks = true)
    (hrom : (st.md_disks (map_md_unit u)).is_rom = true) :
    dioWrite st u hl d e = { st := st, e := 0, result := HBR_READONLY, fatal := false } := by
  simp [dioWrite, hmd, hrom]

/-- C5 witness: DIOWRITE to the ROM disk MD1. -/
theorem C5_diowrite_readonly_witness :
    dioWrite mdDioState 1 0x8000 0x80 4 =
      { st := mdDioState, e := 0, result := HBR_READONLY, fatal := false } :=
  C5_diowrite_readonly mdDioState 1 0x8000 0x80 4 (by decide) (by decide)

/-- Splitting a 32-bit value into DE:HL and recombining is the identity. -/
theorem split32 (x : Nat) (hx : x < 4294967296) :
    ((x >>> 16) &&& 0xFFFF) * 65536 + (x &&& 0xFFFF) = x := by
  have h16 : (0xFFFF : Nat) = 2 ^ 16 - 1 := by norm_num
  have h1 : x &&& 0xFFFF = x % 65536 := by
    rw [h16, Nat.and_pow_two_sub_one_eq_mod]
  have h2 : (x >>> 16) &&& 0xFFFF = x / 65536 % 65536 := by
    rw [h16, Nat.and_pow_two_sub_one_eq_mod, Nat.shiftRight_eq_div_pow]
  rw [h1, h2]
  omega

/-- An already-probed disk is not probed again. -/
theorem probeDisk_probed (d : HBDisk) (h : d.partition_probed = true) : probeDisk d = d := by
  simp [probeDisk, h]

/-- Unfolding of EXTSLICE on a resolved hard-disk unit. -/
theorem extSlice_hd (st : HBDioState) (u slice : Nat)
    (hu : u < 256) (hsl : slice < 256)
    (hmd : is_md_unit u st.md_disks = false)
    (hhd : is_hd_unit u st.disks = true) :
    extSlice st u slice =
      { st := { st with disks := updDisk st.disks (map_hd_unit u) (probeDisk (st.disks (map_hd_unit u))) },
        b := 0,
        c := if (probeDisk (st.disks (map_hd_unit u))).is_hd1k then 0x0A else 0x04,
        de := ((((probeDisk (st.disks (map_hd_unit u))).partition_base_lba +
            slice * (probeDisk (st.disks (map_hd_unit u))).slice_size) % 4294967296) >>> 16)
            &&& 0xFFFF,
        hl := (((probeDisk (st.disks (map_hd_unit u))).partition_base_lba +
            slice * (probeDisk (st.disks (map_hd_unit u))).slice_size) % 4294967296)
            &&& 0xFFFF } := by
  simp [extSlice, Nat.mod_eq_of_lt hu, Nat.mod_eq_of_lt hsl, hmd, hhd]

/-- EXTSLICE on a disk already probed as single-slice hd1k returns media
0x0A and LBA slice * 16384. -/
theorem extSlice_probed_return (st : HBDioState) (u s : Nat)
    (hu : u < 256) (hs : s < 256)
    (hmd : is_md_unit u st.md_disks = false)
    (hhd : is_hd_unit u st.disks = true)
    (hp : (st.disks (map_hd_unit u)).partition_probed = true)
    (hb : (st.disks (map_hd_unit u)).partition_base_lba = 0)
    (hss : (st.disks (map_hd_unit u)).slice_size = 16384)
    (hk : (st.disks (map_hd_unit u)).is_hd1k = true) :
    (extSlice st u s).c = 0x0A ∧
    (extSlice st u s).de * 65536 + (extSlice st u s).hl = s * 16384 := by
  have hid := probeDisk_probed _ hp
  have hrw := extSlice_hd st u s hu hs hmd hhd
  rw [hrw]
  simp only [hid, hb, hss, hk]
  constructor
  · simp
  · have hlba : (0 + s * 16384) % 4294967296 = s * 16384 := by omega
    rw [hlba]
    exact split32 (s * 16384) (by omega)

/-- C7: the first EXTSLICE on an open, un-probed, in-memory hard disk of
exactly 8 388 608 bytes with no type-0x2E partition selected through a
valid MBR signature sets partition_base_lba = 0, slice_size = 16384 and
is_hd1k = true, returns media id 0x0A with DE:HL = slice * 16384, and
every subsequent EXTSLICE on any slice returns media 0x0A and
DE:HL = slice * 16384. -/
theorem C7_extslice_hd1k_single (st : HBDioState) (u slice : Nat)
    (hu : u < 256) (hsl : slice < 256)
    (hmd : is_md_unit u st.md_disks = false)
    (hhd : is_hd_unit u st.disks = true)
    (hnp : (st.disks (map_hd_unit u)).partition_probed = false)
    (hfb : (st.disks (map_hd_unit u)).file_backed = false)
    (hds : (st.disks (map_hd_unit u)).data_size = 8388608)
    (hsz : (st.disks (map_hd_unit u)).size = 8388608)
    (hno : (if (st.disks (map_hd_unit u)).data 510 = 0x55 ∧
              (st.disks (map_hd_unit u)).data 511 = 0xAA
            then findPart2E (st.disks (map_hd_unit u)).data else none) = none) :
    (extSlice st u slice).c = 0x0A ∧
    (extSlice st u slice).de * 65536 + (extSlice st u slice).hl = slice * 16384 ∧
    ((extSlice st u slice).st.disks (map_hd_unit u)).partition_probed = true ∧
    ((extSlice st u slice).st.disks (map_hd_unit u)).partition_base_lba = 0 ∧
    ((extSlice st u slice).st.disks (map_hd_unit u)).slice_size = 16384 ∧
    ((extSlice st u slice).st.disks (map_hd_unit u)).is_hd1k = true ∧
    (∀ s2, s2 < 256 →
      (extSlice ((extSlice st u slice).st) u s2).c = 0x0A ∧
      (extSlice ((extSlice st u slice).st) u s2).de * 65536 +
        (extSlice ((extSlice st u slice).st) u s2).hl = s2 * 16384) := by
  have hprobe : probeDisk (st.disks (map_hd_unit u)) =
      { st.disks (map_hd_unit u) with
        partition_probed := true, partition_base_lba := 0, slice_size := 16384, is_hd1k := true } := by
    simp [probeDisk, hnp, hfb, hds, hsz, hno]
  have hrw := extSlice_hd st u slice hu hsl hmd hhd
  have hopen : (st.disks (map_hd_unit u)).is_open = true := by
    have := hhd
    simp only [is_hd_unit, Bool.and_eq_true, decide_eq_true_eq] at this
    exact this.2
  have hlba : (0 + slice * 16384) % 4294967296 = slice * 16384 := by
    have : slice * 16384 < 4294967296 := by omega
    omega
  have hpost : (extSlice st u slice).st.disks (map_hd_unit u) =
      { st.disks (map_hd_unit u) with
        partition_probed := true, partition_base_lba := 0, slice_size := 16384, is_hd1k := true } := by
    rw [hrw]
    simp [updDisk, hprobe]
  refine ⟨?_, ?_, ?_, ?_, ?_, ?_, ?_⟩
  · rw [hrw]; simp [hprobe]
  · rw [hrw]
    simp only [hprobe, hlba]
    exact split32 (slice * 16384) (by omega)
  · rw [hpost]
  · rw [hpost]
  · rw [hpost]
  · rw [hpost]
  · intro s2 hs2
    have hmd2 : is_md_unit u ((extSlice st u slice).st).md_disks = false := by
      rw [hrw]; simpa using hmd
    have hhd2 : is_hd_unit u ((extSlice st u slice).st).disks = true := by
      simp only [is_hd_unit, Bool.and_eq_true, decide_eq_true_eq] at hhd ⊢
      exact ⟨hhd.1, by rw [hpost]; exact hopen⟩
    exact extSlice_probed_return ((extSlice st u slice).st) u s2 hu hs2 hmd2 hhd2
      (by rw [hpost]) (by rw [hpost]) (by rw [hpost]) (by rw [hpost])

/-- C7 witness: the spec scenario, an 8 MiB zero-filled disk at unit 2,
slice 3 (LBA 49152). -/
theorem C7_extslice_hd1k_single_witness :
    (extSlice hd8mbState 2 3).c = 0x0A ∧
    (extSlice hd8mbState 2 3).de * 65536 + (extSlice hd8mbState 2 3).hl = 3 * 16384 ∧
    ((extSlice hd8mbState 2 3).st.disks (map_hd_unit 2)).is_hd1k = true := by
  have h := C7_extslice_hd1k_single hd8mbState 2 3 (by decide) (by decide) (by decide)
    (by decide) (by decide) (by decide) (by decide) (by decide) (by decide)
  exact ⟨h.1, h.2.1, h.2.2.2.2.2.1⟩

/-- C1 counterexample: SYSSETCPY(src bank 0x01, dst bank 0x8F, count 1)
then SYSBNKCPY(src addr 0, dst addr 0x678) reads 0xFF from ROM bank 1,
but the destination byte in RAM bank 0xF stays 0 because offset 0x678 of
the common bank is DEVMAP-protected in write_bank, so the destination
byte does not equal the source byte. -/
theorem C1_counterexample :
    read_bank (sysBnkCpy initMem (sysSetCpy {} 0x8F 0x01 1) 0x0000 0x0678) 0x8F 0x678 = 0x00 ∧
    read_bank initMem 0x01 0x0000 = 0xFF := by decide

/-- The SYSBNKCPY loop at zero iterations. -/
theorem bnkcpyLoop_zero (srcB dstB srcA dstA : Nat) (mem : BankedMem) :
    bnkcpyLoop srcB dstB srcA dstA mem 0 = mem := rfl

/-- The SYSBNKCPY loop peels its last iteration. -/
theorem bnkcpyLoop_succ (srcB dstB srcA dstA : Nat) (mem : BankedMem) (n : Nat) :
    bnkcpyLoop srcB dstB srcA dstA mem (n + 1) =
      bnkcpyStep (bnkcpyLoop srcB dstB srcA dstA mem n) srcB dstB
        ((srcA + n) % 65536) ((dstA + n) % 65536) := rfl

/-- A copy step written through the resolved-side helpers. -/
theorem bnkcpyStep_eq (mem : BankedMem) (srcB dstB S D n : Nat) :
    bnkcpyStep mem srcB dstB ((S + n) % 65536) ((D + n) % 65536) =
      write_bank mem (bcBank dstB D n) (bcAddr dstB D n)
        (read_bank mem (bcBank srcB S n) (bcAddr srcB S n)) := rfl

/-- The loop never changes the ROM array, the banking flag or the
selected bank. -/
theorem bnkcpyLoop_preserves (srcB dstB srcA dstA : Nat) (mem : BankedMem) (n : Nat) :
    (bnkcpyLoop srcB dstB srcA dstA mem n).rom = mem.rom ∧
    (bnkcpyLoop srcB dstB srcA dstA mem n).banking_enabled = mem.banking_enabled := by
  induction n with
  | zero => exact ⟨rfl, rfl⟩
  | succ k ih =>
    rw [bnkcpyLoop_succ]
    have hw := write_bank_preserves (bnkcpyLoop srcB dstB srcA dstA mem k)
      (resolveCommon dstB ((dstA + k) % 65536)).1 (resolveCommon dstB ((dstA + k) % 65536)).2
      (read_bank (bnkcpyLoop srcB dstB srcA dstA mem k)
        (resolveCommon srcB ((srcA + k) % 65536)).1 (resolveCommon srcB ((srcA + k) % 65536)).2)
    exact ⟨hw.1.trans ih.1, hw.2.1.trans ih.2⟩

/-- The resolved offset of a transfer side is always inside the bank. -/
theorem bcAddr_lt (bank base i : Nat) : bcAddr bank base i < BANK_SIZE := by
  have h : (base + i) % 65536 < 65536 := Nat.mod_lt _ (by norm_num)
  unfold bcAddr resolveCommon
  split
  · simp only [BANK_SIZE]; omega
  · simp only [BANK_SIZE]
    rename_i hc
    omega

/-- The resolved bank of a RAM-bank transfer side is a RAM bank. -/
theorem bcBank_ram (bank base i : Nat) (h : bank &&& 0x80 ≠ 0) :
    bcBank bank base i &&& 0x80 ≠ 0 := by
  unfold bcBank resolveCommon
  split
  · simp
  · exact h

/-- read_bank only depends on the banking flag, the ROM array and the
addressed RAM cell. -/
theorem read_bank_congr (m m' : BankedMem) (b o : Nat)
    (he : m'.banking_enabled = m.banking_enabled) (hr : m'.rom = m.rom)
    (hram : b &&& 0x80 ≠ 0 → m'.ram (masked_phys b o) = m.ram (masked_phys b o)) :
    read_bank m' b o = read_bank m b o := by
  unfold read_bank
  rw [he, hr]
  by_cases hc : (!m.banking_enabled || decide (BANK_SIZE ≤ o)) = true
  · simp [hc]
  · by_cases hb : b &&& 0x80 ≠ 0
    · simp [hc, hb, hram hb]
    · simp [hc, hb]

/-- read_bank returns a byte whenever the state holds bytes. -/
theorem read_bank_lt_256 (m : BankedMem) (b o : Nat)
    (hram : ∀ p, m.ram p < 256) (hrom : ∀ p, m.rom p < 256) :
    read_bank m b o < 256 := by
  unfold read_bank
  split
  · norm_num
  · split
    · exact hram _
    · exact hrom _

/-- Main loop invariant for SYSBNKCPY: cells outside the resolved
destination set are untouched, and destination byte i holds the byte the
source held before the call. -/
theorem bnkcpyLoop_spec (mem : BankedMem) (srcB dstB S D N : Nat)
    (hEn : mem.banking_enabled = true)
    (hB : dstB &&& 0x80 ≠ 0)
    (hProt : ∀ j, j < N → devmapProtected (bcPhys dstB D j) = false ∧
        identProtected (bcPhys dstB D j) = false)
    (hInj : ∀ j, j < N → ∀ k, k < N → j ≠ k → bcPhys dstB D j ≠ bcPhys dstB D k)
    (hDisj : ∀ j, j < N → ∀ k, k < N → bcBank srcB S j &&& 0x80 ≠ 0 →
        bcPhys srcB S j ≠ bcPhys dstB D k) :
    ∀ n, n ≤ N →
      (∀ p, (∀ j, j < n → p ≠ bcPhys dstB D j) →
          (bnkcpyLoop srcB dstB S D mem n).ram p = mem.ram p) ∧
      (∀ i, i < n → (bnkcpyLoop srcB dstB S D mem n).ram (bcPhys dstB D i) =
          read_bank mem (bcBank srcB S i) (bcAddr srcB S i) % 256) := by
  intro n
  induction n with
  | zero => exact fun _ => ⟨fun p _ => rfl, fun i hi => absurd hi (Nat.not_lt_zero i)⟩
  | succ k ih =>
    intro hk1
    have hkN : k < N := hk1
    obtain ⟨ihF, ihH⟩ := ih (Nat.le_of_lt hkN)
    have hpres := bnkcpyLoop_preserves srcB dstB S D mem k
    have hstep : bnkcpyLoop srcB dstB S D mem (k + 1) =
        write_bank (bnkcpyLoop srcB dstB S D mem k) (bcBank dstB D k) (bcAddr dstB D k)
          (read_bank (bnkcpyLoop srcB dstB S D mem k) (bcBank srcB S k) (bcAddr srcB S k)) :=
      rfl
    have hval : read_bank (bnkcpyLoop srcB dstB S D mem k) (bcBank srcB S k) (bcAddr srcB S k) =
        read_bank mem (bcBank srcB S k) (bcAddr srcB S k) := by
      apply read_bank_congr
      · exact hpres.2
      · exact hpres.1
      · intro hsr
        apply ihF
        intro j hj
        exact hDisj k hkN j (Nat.lt_of_lt_of_le hj (Nat.le_of_lt hkN)) hsr
    constructor
    · intro p hp
      rw [hstep, write_bank_ram_frame _ _ _ _ _ (hp k (Nat.lt_succ_self k))]
      exact ihF p fun j hj => hp j (Nat.lt_succ_of_lt hj)
    · intro i hi
      rcases Nat.lt_succ_iff_lt_or_eq.mp hi with hik | hik
      · rw [hstep, write_bank_ram_frame _ _ _ _ _
          (hInj i (Nat.lt_of_lt_of_le hik (Nat.le_of_lt hkN)) k hkN (Nat.ne_of_lt hik))]
        exact ihH i hik
      · subst hik
        rw [hstep, hval]
        exact write_bank_ram_hit _ _ _ _ (hpres.2.trans hEn) (bcAddr_lt dstB D i)
          (bcBank_ram dstB D i hB) (hProt i hkN).1 (hProt i hkN).2

/-- C1 (amended): after SYSSETCPY(dst=B, src=A, count=N) and
SYSBNKCPY(src addr S, dst addr D), destination byte i (with the common
substitution applied on each side) equals the byte the source location
held before the call, provided the destination bank is a RAM bank, no
resolved destination byte falls in a write-protected range (DEVMAP or
ident), the resolved destination cells are pairwise distinct, and no
RAM-resolved source cell coincides with a destination cell. -/
theorem C1_sysbnkcpy_copy (mem : BankedMem) (st0 : BnkCpyState) (A B S D N : Nat)
    (hA : A < 256) (hB : B < 256) (hS : S < 65536) (hD : D < 65536) (hN : N < 65536)
    (hEn : mem.banking_enabled = true)
    (hBram : B &&& 0x80 ≠ 0)
    (hBytes : ∀ p, mem.ram p < 256) (hBytesR : ∀ p, mem.rom p < 256)
    (hProt : ∀ j, j < N → devmapProtected (bcPhys B D j) = false ∧
        identProtected (bcPhys B D j) = false)
    (hInj : ∀ j, j < N → ∀ k, k < N → j ≠ k → bcPhys B D j ≠ bcPhys B D k)
    (hDisj : ∀ j, j < N → ∀ k, k < N → bcBank A S j &&& 0x80 ≠ 0 →
        bcPhys A S j ≠ bcPhys B D k)
    (i : Nat) (hi : i < N) :
    read_bank (sysBnkCpy mem (sysSetCpy st0 B A N) S D) (bcBank B D i) (bcAddr B D i)
      = read_bank mem (bcBank A S i) (bcAddr A S i) := by
  have hset : sysSetCpy st0 B A N =
      { bnkcpy_src_bank := A, bnkcpy_dst_bank := B, bnkcpy_count := N } := by
    simp [sysSetCpy, Nat.mod_eq_of_lt hA, Nat.mod_eq_of_lt hB, Nat.mod_eq_of_lt hN]
  have hrun : sysBnkCpy mem (sysSetCpy st0 B A N) S D = bnkcpyLoop A B S D mem N := by
    rw [hset]
    simp only [sysBnkCpy]
    rw [if_pos (Nat.pos_of_ne_zero (by omega)), Nat.mod_eq_of_lt hS, Nat.mod_eq_of_lt hD]
  have hspec := (bnkcpyLoop_spec mem A B S D N hEn hBram hProt hInj hDisj N (Nat.le_refl N)).2
    i hi
  have hpres := bnkcpyLoop_preserves A B S D mem N
  have hb256 : read_bank mem (bcBank A S i) (bcAddr A S i) < 256 :=
    read_bank_lt_256 mem _ _ hBytes hBytesR
  rw [hrun]
  have hguard : (!(bnkcpyLoop A B S D mem N).banking_enabled ||
      decide (BANK_SIZE ≤ bcAddr B D i)) = false := by
    simp [hpres.2, hEn, Nat.not_le.mpr (bcAddr_lt B D i)]
  have hred : read_bank (bnkcpyLoop A B S D mem N) (bcBank B D i) (bcAddr B D i) =
      (bnkcpyLoop A B S D mem N).ram (bcPhys B D i) := by
    unfold read_bank
    rw [if_neg (by simp [hguard]), if_pos (bcBank_ram B D i hBram)]
    rfl
  rw [hred, hspec, Nat.mod_eq_of_lt hb256]

/-- C1 witness: a two-byte copy from ROM bank 1 into RAM bank 0xE. -/
theorem C1_sysbnkcpy_copy_witness :
    read_bank (sysBnkCpy initMem (sysSetCpy {} 0x8E 0x01 2) 0 0x100)
        (bcBank 0x8E 0x100 0) (bcAddr 0x8E 0x100 0)
      = read_bank initMem (bcBank 0x01 0 0) (bcAddr 0x01 0 0) :=
  C1_sysbnkcpy_copy initMem {} 0x01 0x8E 0 0x100 2 (by decide) (by decide) (by decide)
    (by decide) (by decide) rfl (by decide)
    (by intro p; simp [initMem]) (by intro p; simp [initMem])
    (by decide) (by decide) (by decide) 0 (by decide)

end RomWBW
